import Mathlib

/-!
# Health-Monitor-Vision: shallow embedding and verification

A shallow embedding of the signal-to-alert core of the Health-Monitor-Vision
repository (src/src/alert_system.py, eye_tracker.py, posture_analyzer.py,
screen_time_tracker.py, health_monitor.py), with theorems settling the
behavioural claims about it.

Modelling conventions:
* Wall-clock times and all float-valued signals are rationals (`ℚ`);
  every method that reads `time.time()` takes the current time `now`
  explicitly (the source reads the clock several times inside one call;
  within one call those reads are the same instant up to microseconds and
  the spec mandates a single clock source, so they are identified).
* Calendar dates (`time.strftime("%Y-%m-%d")` / `datetime.now().date()`)
  are an abstract `ℕ` passed explicitly; only equality of dates is used.
* Python `deque(maxlen=n)` is a list where appending past capacity evicts
  from the front (`pushBounded`).
* Python `dict` fields keyed by the `AlertType` enum are total functions
  `AlertType → _` (the dicts are initialised with every key at
  construction; `.get(k, d)` never falls back to the default).
* Python truthiness of `Optional[float]` fields (`if self.pause_until:`,
  `if self.eye_close_start_time:`, `end = self.end_time or time.time()`)
  is modelled exactly: `none` and `some 0` are both falsy.
* Observer callbacks (`_notify_callbacks`), the vision engine (camera and
  landmark geometry) and the data logger are external collaborators
  (spec §1/§6): callbacks are not part of the state, the vision outputs
  are parameters of `processFrame`, logging is a no-op on core state.
* Python's float string formatting (`:.0f`, `:.1f`) inside alert message
  strings is abstracted by simple formatters; no claim depends on the
  text of a message.
-/

/-- `deque(maxlen := n)`: append `x` on the right, evicting from the left
when the capacity `n` is exceeded. -/
def pushBounded {α : Type} (n : ℕ) (xs : List α) (x : α) : List α :=
  let ys := xs ++ [x]
  ys.drop (ys.length - n)

/-- Abstraction of Python `f"{q:.0f}"` (formatting only; no claim reads it). -/
def fmt0 (q : ℚ) : String := toString q.floor

/-- Abstraction of Python `f"{q:.1f}"` (formatting only; no claim reads it). -/
def fmt1 (q : ℚ) : String := toString (q * 10).floor

/-! ## alert_system.py -/

/-- `AlertType` enum. -/
inductive AlertType
  | EYE_STRAIN
  | POSTURE
  | BREAK_NEEDED
  | DISTANCE
  | BLINK_REMINDER
deriving DecidableEq, Repr

/-- `AlertSeverity` enum. -/
inductive AlertSeverity
  | INFO
  | WARNING
  | CRITICAL
deriving DecidableEq, Repr

/-- The `Alert` dataclass. -/
structure Alert where
  alert_type : AlertType
  severity : AlertSeverity
  title : String
  message : String
  recommendation : String
  timestamp : ℚ
  acknowledged : Bool := false
  escalation_level : ℕ := 0
deriving DecidableEq, Repr

namespace AlertSystem

/-- `AlertSystem.COOLDOWN_PERIODS` (total, so `.get(t, 60)` never defaults). -/
def COOLDOWN_PERIODS : AlertType → ℚ
  | .EYE_STRAIN => 120
  | .POSTURE => 60
  | .BREAK_NEEDED => 300
  | .DISTANCE => 30
  | .BLINK_REMINDER => 45

def MAX_ESCALATION : ℕ := 3

def ESCALATION_INTERVAL : ℚ := 60

/-- The mutable state of an `AlertSystem` instance.

`esc_check_count` is a ghost instrumentation field, not present in the
source: it counts invocations of `check_escalations`, which no source
field records, and is needed to state how often the aggregator calls it.
No source-modelled function reads it. -/
structure State where
  active_alerts : List Alert
  alert_history : List Alert
  last_alert_times : AlertType → ℚ
  escalation_counts : AlertType → ℕ
  pending_escalations : AlertType → Option ℚ
  is_paused : Bool
  pause_until : Option ℚ
  alerts_today : ℕ
  last_reset_date : ℕ
  esc_check_count : ℕ

/-- `AlertSystem.__init__` (constructed at date `d0`). -/
def init (d0 : ℕ) : State where
  active_alerts := []
  alert_history := []
  last_alert_times := fun _ => 0
  escalation_counts := fun _ => 0
  pending_escalations := fun _ => none
  is_paused := false
  pause_until := none
  alerts_today := 0
  last_reset_date := d0
  esc_check_count := 0

/-- `AlertSystem.can_send_alert`.  The pause check can mutate the state
(auto-clearing an expired pause), so the new state is returned alongside
the boolean.  `if self.pause_until and time.time() >= self.pause_until`
uses Python truthiness: `None` and `0.0` are both falsy. -/
def can_send_alert (s : State) (now : ℚ) (alert_type : AlertType) :
    Bool × State :=
  let expired : Bool := match s.pause_until with
    | some p => decide (p ≠ 0 ∧ now ≥ p)
    | none => false
  if s.is_paused then
    if expired then
      let s' := { s with is_paused := false, pause_until := none }
      (decide (now - s'.last_alert_times alert_type ≥
        COOLDOWN_PERIODS alert_type), s')
    else
      (false, s)
  else
    (decide (now - s.last_alert_times alert_type ≥
      COOLDOWN_PERIODS alert_type), s)

/-- `AlertSystem._schedule_escalation`. -/
def schedule_escalation (s : State) (now : ℚ) (alert_type : AlertType) :
    State :=
  if s.escalation_counts alert_type < MAX_ESCALATION then
    let p := Function.update s.pending_escalations alert_type
      (some (now + ESCALATION_INTERVAL))
    { s with pending_escalations := p }
  else
    s

/-- `AlertSystem.create_alert`.  Observer notification
(`_notify_callbacks`) is external fan-out and does not change core state. -/
def create_alert (s : State) (now : ℚ) (date : ℕ) (alert_type : AlertType)
    (severity : AlertSeverity) (title message recommendation : String) :
    Option Alert × State :=
  let (ok, s1) := can_send_alert s now alert_type
  if !ok then
    (none, s1)
  else
    let s2 := if date ≠ s1.last_reset_date then
        { s1 with alerts_today := 0, last_reset_date := date }
      else s1
    let alert : Alert :=
      { alert_type := alert_type
        severity := severity
        title := title
        message := message
        recommendation := recommendation
        timestamp := now
        acknowledged := false
        escalation_level := s2.escalation_counts alert_type }
    let s3 := { s2 with
      active_alerts := s2.active_alerts ++ [alert]
      alert_history := pushBounded 100 s2.alert_history alert
      last_alert_times := Function.update s2.last_alert_times alert_type now
      alerts_today := s2.alerts_today + 1 }
    let s4 := if severity = .WARNING ∨ severity = .CRITICAL then
        schedule_escalation s3 now alert_type
      else s3
    (some alert, s4)

/-- `AlertSystem.check_escalations`.  The source iterates the pending
dict, collecting expired entries that still have an unacknowledged active
alert and deleting every expired entry, then increments the collected
types' counts; since dict keys are unique and `active_alerts` is not
mutated during the loop, this is the per-key function below.  The ghost
`esc_check_count` counts the invocation. -/
def check_escalations (s : State) (now : ℚ) : State :=
  { s with
    pending_escalations := fun t => match s.pending_escalations t with
      | some τ => if now ≥ τ then none else some τ
      | none => none
    escalation_counts := fun t => match s.pending_escalations t with
      | some τ =>
        if now ≥ τ ∧
            (s.active_alerts.filter
              (fun a => a.alert_type = t ∧ a.acknowledged = false)) ≠ [] then
          s.escalation_counts t + 1
        else s.escalation_counts t
      | none => s.escalation_counts t
    esc_check_count := s.esc_check_count + 1 }

/-- `AlertSystem.acknowledge_alert`.  The source mutates the passed alert
object (`alert.acknowledged = True`) and then filters out list entries
equal to it; object identity is modelled by value (the map marks the
matching entry), which coincides with the source whenever the active list
holds no two value-identical alerts. -/
def acknowledge_alert (s : State) (alert : Alert) : State :=
  let acked := { alert with acknowledged := true }
  { s with
    active_alerts :=
      (s.active_alerts.map (fun a => if a = alert then acked else a)).filter
        (fun a => a ≠ acked)
    pending_escalations :=
      Function.update s.pending_escalations alert.alert_type none
    escalation_counts :=
      Function.update s.escalation_counts alert.alert_type 0 }

/-- `AlertSystem.acknowledge_all`. -/
def acknowledge_all (s : State) : State :=
  { s with
    active_alerts := []
    pending_escalations := fun _ => none
    escalation_counts := fun _ => 0 }

/-- `AlertSystem.get_active_alerts`. -/
def get_active_alerts (s : State) : List Alert :=
  s.active_alerts.filter (fun a => a.acknowledged = false)

end AlertSystem

/-! ## eye_tracker.py -/

/-- `EyeHealthStatus` enum. -/
inductive EyeHealthStatus
  | HEALTHY
  | WARNING
  | CRITICAL
deriving DecidableEq, Repr

/-- The `BlinkEvent` dataclass. -/
structure BlinkEvent where
  timestamp : ℚ
  duration : ℚ
deriving DecidableEq, Repr

/-- The `EyeHealthMetrics` dataclass. -/
structure EyeHealthMetrics where
  blink_rate : ℚ
  avg_blink_duration : ℚ
  eye_strain_score : ℚ
  status : EyeHealthStatus
  time_since_last_blink : ℚ
  current_ear : ℚ
deriving DecidableEq, Repr

namespace EyeTracker

def HEALTHY_BLINK_RATE_MIN : ℚ := 12
def WARNING_BLINK_RATE : ℚ := 8
def CRITICAL_BLINK_RATE : ℚ := 5
def EAR_BLINK_THRESHOLD : ℚ := 21/100
def MIN_BLINK_DURATION : ℚ := 5/100
def MAX_BLINK_DURATION : ℚ := 5/10
def BLINK_HISTORY_WINDOW : ℚ := 60
def calibration_duration : ℚ := 120

/-- The mutable state of an `EyeTracker` instance. -/
structure State where
  blink_history : List BlinkEvent
  ear_history : List ℚ
  is_eye_closed : Bool
  eye_close_start_time : Option ℚ
  last_blink_time : ℚ
  baseline_blink_rate : Option ℚ
  calibration_blinks : List ℚ
  is_calibrating : Bool
  calibration_start_time : ℚ
deriving DecidableEq, Repr

/-- `EyeTracker.__init__` (constructed at time `t0`). -/
def init (t0 : ℚ) : State where
  blink_history := []
  ear_history := []
  is_eye_closed := false
  eye_close_start_time := none
  last_blink_time := t0
  baseline_blink_rate := none
  calibration_blinks := []
  is_calibrating := true
  calibration_start_time := t0

/-- `EyeTracker._complete_calibration`. -/
def complete_calibration (s : State) : State :=
  let rate := (s.calibration_blinks.length : ℚ) / (calibration_duration / 60)
  let s1 := if s.calibration_blinks.length ≥ 5 then
      { s with baseline_blink_rate := some rate }
    else s
  { s1 with is_calibrating := false, calibration_blinks := [] }

/-- `EyeTracker.update`.  `if self.is_eye_closed and self.eye_close_start_time:`
uses Python truthiness: a stored close-start time of exactly `0.0` is falsy. -/
def update (s : State) (left_ear right_ear : ℚ) (now : ℚ) :
    Option BlinkEvent × State :=
  let avg_ear := (left_ear + right_ear) / 2
  let s := { s with ear_history := pushBounded 30 s.ear_history avg_ear }
  let closeStartTruthy : Bool := match s.eye_close_start_time with
    | some t => decide (t ≠ 0)
    | none => false
  let (blink_event, s) :=
    if avg_ear < EAR_BLINK_THRESHOLD then
      if !s.is_eye_closed then
        (none, { s with is_eye_closed := true, eye_close_start_time := some now })
      else
        ((none : Option BlinkEvent), s)
    else
      if s.is_eye_closed ∧ closeStartTruthy then
        let blink_duration := now - s.eye_close_start_time.getD 0
        let (ev, s') :=
          if MIN_BLINK_DURATION ≤ blink_duration ∧
              blink_duration ≤ MAX_BLINK_DURATION then
            let ev : BlinkEvent := { timestamp := now, duration := blink_duration }
            let s'' := { s with
              blink_history := pushBounded 100 s.blink_history ev
              last_blink_time := now }
            let s''' := if s''.is_calibrating then
                { s'' with calibration_blinks := s''.calibration_blinks ++ [now] }
              else s''
            ((some ev : Option BlinkEvent), s''')
          else
            (none, s)
        (ev, { s' with is_eye_closed := false, eye_close_start_time := none })
      else
        (none, s)
  let s := if s.is_calibrating ∧
      decide (now - s.calibration_start_time ≥ calibration_duration) then
      complete_calibration s
    else s
  (blink_event, s)

/-- `EyeTracker.get_current_blink_rate`. -/
def get_current_blink_rate (s : State) (now : ℚ) : ℚ :=
  let window_start := now - BLINK_HISTORY_WINDOW
  let recent_blinks := s.blink_history.filter (fun b => b.timestamp ≥ window_start)
  if recent_blinks.length < 2 then 0
  else (recent_blinks.length : ℚ) / (BLINK_HISTORY_WINDOW / 60)

/-- Mean of `ear_history` with the source's empty-history default `0.25`. -/
def avg_ear_of (s : State) : ℚ :=
  if s.ear_history = [] then 25/100
  else s.ear_history.sum / (s.ear_history.length : ℚ)

/-- The tier arithmetic of `EyeTracker.calculate_eye_strain_score`, with the
quantities the method derives from state (blink rate, time since last blink,
mean EAR, baseline) as explicit arguments.  `if self.baseline_blink_rate:`
uses Python truthiness: `None` and `0.0` are both falsy. -/
def strain_score_core (blink_rate time_since_blink avg_ear : ℚ)
    (baseline : Option ℚ) : ℚ :=
  let score : ℚ := 0
  let score := if blink_rate < CRITICAL_BLINK_RATE then score + 40
    else if blink_rate < WARNING_BLINK_RATE then score + 25
    else if blink_rate < HEALTHY_BLINK_RATE_MIN then score + 10
    else score
  let score := if time_since_blink > 30 then score + 30
    else if time_since_blink > 15 then score + 15
    else if time_since_blink > 10 then score + 5
    else score
  let score := if avg_ear < 22/100 then score + 20
    else if avg_ear < 24/100 then score + 10
    else score
  let score := match baseline with
    | some b =>
      if b ≠ 0 then
        let rate_deviation := (b - blink_rate) / b
        if rate_deviation > 5/10 then score + 15
        else if rate_deviation > 3/10 then score + 8
        else score
      else score
    | none => score
  min 100 score

/-- `EyeTracker.calculate_eye_strain_score`. -/
def calculate_eye_strain_score (s : State) (now : ℚ) : ℚ :=
  strain_score_core (get_current_blink_rate s now) (now - s.last_blink_time)
    (avg_ear_of s) s.baseline_blink_rate

/-- `EyeTracker.get_health_status`. -/
def get_health_status (s : State) (now : ℚ) : EyeHealthStatus :=
  let score := calculate_eye_strain_score s now
  if score ≥ 60 then .CRITICAL
  else if score ≥ 30 then .WARNING
  else .HEALTHY

/-- `EyeTracker.get_metrics`. -/
def get_metrics (s : State) (now : ℚ) : EyeHealthMetrics :=
  let recent_blinks := s.blink_history.drop (s.blink_history.length - 20)
  let avg_duration := if recent_blinks = [] then 0
    else (recent_blinks.map BlinkEvent.duration).sum / (recent_blinks.length : ℚ)
  { blink_rate := get_current_blink_rate s now
    avg_blink_duration := avg_duration
    eye_strain_score := calculate_eye_strain_score s now
    status := get_health_status s now
    time_since_last_blink := now - s.last_blink_time
    current_ear := avg_ear_of s }

/-- `EyeTracker.get_recommendation`. -/
def get_recommendation (s : State) (now : ℚ) : Option String :=
  let metrics := get_metrics s now
  if metrics.status = .CRITICAL then
    if metrics.time_since_last_blink > 20 then
      some ("You haven\x27t blinked in a while. Please blink now and consider " ++
        "the 20-20-20 rule: look at something 20 feet away for 20 seconds.")
    else
      some "Your eyes are showing signs of strain. Take a short break and look away from the screen."
  else if metrics.status = .WARNING then
    if metrics.blink_rate < WARNING_BLINK_RATE then
      some "Your blink rate is lower than normal. Try to blink more consciously."
    else
      some "Your eyes may be getting tired. Consider resting them soon."
  else
    none

end EyeTracker

/-! ## posture_analyzer.py -/

/-- `PostureStatus` enum. -/
inductive PostureStatus
  | GOOD
  | WARNING
  | POOR
deriving DecidableEq, Repr

/-- The `PostureMetrics` dataclass. -/
structure PostureMetrics where
  head_pitch : ℚ
  head_yaw : ℚ
  head_roll : ℚ
  distance_from_screen : ℚ
  posture_score : ℚ
  status : PostureStatus
  issues : List String
  bad_posture_duration : ℚ
deriving DecidableEq, Repr

namespace PostureAnalyzer

def IDEAL_DISTANCE_MIN : ℚ := 30
def IDEAL_DISTANCE_MAX : ℚ := 50
def WARNING_DISTANCE_MIN : ℚ := 20
def CRITICAL_DISTANCE_MIN : ℚ := 10
def HEAD_TILT_WARNING : ℚ := 20
def HEAD_TILT_CRITICAL : ℚ := 25
def FORWARD_HEAD_WARNING : ℚ := 20
def FORWARD_HEAD_CRITICAL : ℚ := 35
def HEAD_ROLL_WARNING : ℚ := 15
def HEAD_ROLL_CRITICAL : ℚ := 25
def BAD_POSTURE_ALERT_THRESHOLD : ℚ := 30
def calibration_duration : ℚ := 30

/-- `np.median` on a list of rationals: sort ascending; odd length takes the
middle element, even length averages the two middle elements. -/
def npMedian (xs : List ℚ) : ℚ :=
  let sorted := List.insertionSort (· ≤ ·) xs
  let n := sorted.length
  if n = 0 then 0
  else if n % 2 = 1 then sorted.getD (n / 2) 0
  else (sorted.getD (n / 2 - 1) 0 + sorted.getD (n / 2) 0) / 2

/-- The mutable state of a `PostureAnalyzer` instance. -/
structure State where
  pitch_history : List ℚ
  yaw_history : List ℚ
  roll_history : List ℚ
  distance_history : List ℚ
  baseline_pitch : Option ℚ
  baseline_yaw : Option ℚ
  baseline_distance : Option ℚ
  calibration_data : List (ℚ × ℚ × ℚ × ℚ)
  is_calibrating : Bool
  calibration_start_time : ℚ
  bad_posture_start_time : Option ℚ
  current_bad_posture_duration : ℚ
  total_bad_posture_time : ℚ
deriving DecidableEq, Repr

/-- `PostureAnalyzer.__init__` (constructed at time `t0`). -/
def init (t0 : ℚ) : State where
  pitch_history := []
  yaw_history := []
  roll_history := []
  distance_history := []
  baseline_pitch := none
  baseline_yaw := none
  baseline_distance := none
  calibration_data := []
  is_calibrating := true
  calibration_start_time := t0
  bad_posture_start_time := none
  current_bad_posture_duration := 0
  total_bad_posture_time := 0

/-- `PostureAnalyzer._complete_calibration`. -/
def complete_calibration (s : State) : State :=
  let s1 := if s.calibration_data.length ≥ 10 then
      { s with
        baseline_pitch := some (npMedian (s.calibration_data.map (fun d => d.1)))
        baseline_yaw := some (npMedian (s.calibration_data.map (fun d => d.2.1)))
        baseline_distance := some (npMedian (s.calibration_data.map (fun d => d.2.2.2))) }
    else s
  { s1 with is_calibrating := false, calibration_data := [] }

/-- `PostureAnalyzer.get_smoothed_values` (mean of each rolling window, with
the source's empty-history defaults `0, 0, 0, 50`). -/
def get_smoothed_values (s : State) : ℚ × ℚ × ℚ × ℚ :=
  let mean := fun (xs : List ℚ) (d : ℚ) =>
    if xs = [] then d else xs.sum / (xs.length : ℚ)
  (mean s.pitch_history 0, mean s.yaw_history 0, mean s.roll_history 0,
    mean s.distance_history 50)

/-- `PostureAnalyzer.calculate_posture_score`.  `(self.baseline_pitch or 0)`
maps `None` to `0` (and `0.0` to `0`, the same value). -/
def calculate_posture_score (s : State) : ℚ :=
  let (pitch, yaw, roll, distance) := get_smoothed_values s
  let score : ℚ := 100
  let pitch_deviation := |pitch - s.baseline_pitch.getD 0|
  let score := if pitch_deviation > FORWARD_HEAD_CRITICAL then score - 30
    else if pitch_deviation > FORWARD_HEAD_WARNING then score - 15
    else score
  let roll_deviation := |roll|
  let score := if roll_deviation > HEAD_ROLL_CRITICAL then score - 25
    else if roll_deviation > HEAD_ROLL_WARNING then score - 12
    else score
  let yaw_deviation := |yaw - s.baseline_yaw.getD 0|
  let score := if yaw_deviation > HEAD_TILT_CRITICAL then score - 20
    else if yaw_deviation > HEAD_TILT_WARNING then score - 10
    else score
  let score := if distance < CRITICAL_DISTANCE_MIN then score - 30
    else if distance < WARNING_DISTANCE_MIN then score - 15
    else if distance < IDEAL_DISTANCE_MIN then score - 5
    else if distance > IDEAL_DISTANCE_MAX + 30 then score - 10
    else score
  let score := if s.current_bad_posture_duration > 120 then score - 15
    else if s.current_bad_posture_duration > 60 then score - 8
    else score
  max 0 score

/-- `PostureAnalyzer.get_status`. -/
def get_status (s : State) : PostureStatus :=
  let score := calculate_posture_score s
  if score ≥ 70 then .GOOD
  else if score ≥ 40 then .WARNING
  else .POOR

/-- `PostureAnalyzer.update`.  `if self.bad_posture_start_time:` on the
good-posture branch uses Python truthiness (`None` and `0.0` falsy). -/
def update (s : State) (head_pose : ℚ × ℚ × ℚ) (distance : ℚ) (now : ℚ) :
    State :=
  let (pitch, yaw, roll) := head_pose
  let s := { s with
    pitch_history := pushBounded 30 s.pitch_history pitch
    yaw_history := pushBounded 30 s.yaw_history yaw
    roll_history := pushBounded 30 s.roll_history roll
    distance_history := pushBounded 30 s.distance_history distance }
  let s := if s.is_calibrating then
      let s' := { s with
        calibration_data := s.calibration_data ++ [(pitch, yaw, roll, distance)] }
      if now - s'.calibration_start_time ≥ calibration_duration then
        complete_calibration s'
      else s'
    else s
  let status := get_status s
  if status ≠ PostureStatus.GOOD then
    let start := match s.bad_posture_start_time with
      | some t => t
      | none => now
    { s with
      bad_posture_start_time := some start
      current_bad_posture_duration := now - start }
  else
    let startTruthy : Bool := match s.bad_posture_start_time with
      | some t => decide (t ≠ 0)
      | none => false
    let s' := if startTruthy then
        { s with total_bad_posture_time :=
            s.total_bad_posture_time + s.current_bad_posture_duration }
      else s
    { s' with bad_posture_start_time := none, current_bad_posture_duration := 0 }

/-- `PostureAnalyzer.get_issues`.  String formatting of the measured values
is abstracted by `fmt0`. -/
def get_issues (s : State) : List String :=
  let (pitch, yaw, roll, distance) := get_smoothed_values s
  let pitch_deviation := pitch - s.baseline_pitch.getD 0
  let l1 : List String := if pitch_deviation > FORWARD_HEAD_WARNING then
      ["Forward head posture detected"]
    else if pitch_deviation < -FORWARD_HEAD_WARNING then
      ["Head tilted back too far"]
    else []
  let l2 : List String := if |roll| > HEAD_ROLL_WARNING then
      [if roll > 0 then "Head tilted to the right" else "Head tilted to the left"]
    else []
  let yaw_deviation := |yaw - s.baseline_yaw.getD 0|
  let l3 : List String := if yaw_deviation > HEAD_TILT_WARNING then
      [if yaw > 0 then "Head turned to the right" else "Head turned to the left"]
    else []
  let l4 : List String := if distance < WARNING_DISTANCE_MIN then
      ["Too close to screen (" ++ fmt0 distance ++ "cm)"]
    else if distance < IDEAL_DISTANCE_MIN then
      ["Consider moving back slightly (" ++ fmt0 distance ++ "cm)"]
    else []
  let l5 : List String := if s.current_bad_posture_duration > 60 then
      ["Poor posture for " ++ fmt0 s.current_bad_posture_duration ++ " seconds"]
    else []
  l1 ++ l2 ++ l3 ++ l4 ++ l5

/-- `PostureAnalyzer.get_metrics`. -/
def get_metrics (s : State) : PostureMetrics :=
  let (pitch, yaw, roll, distance) := get_smoothed_values s
  { head_pitch := pitch
    head_yaw := yaw
    head_roll := roll
    distance_from_screen := distance
    posture_score := calculate_posture_score s
    status := get_status s
    issues := get_issues s
    bad_posture_duration := s.current_bad_posture_duration }

/-- `PostureAnalyzer.get_recommendation`.  The source tests
`"Forward head posture" in str(metrics.issues)`, a substring check on the
stringified issue list; an issue string contains that substring exactly when
it is the "Forward head posture detected" issue. -/
def get_recommendation (s : State) : Option String :=
  let metrics := get_metrics s
  if metrics.status = .POOR then
    if metrics.distance_from_screen < WARNING_DISTANCE_MIN then
      some "You\x27re too close to the screen. Move back to at least 50cm for better eye and posture health."
    else if metrics.issues.any (fun i => i = "Forward head posture detected") then
      some "Your head is leaning forward. Sit back and align your ears with your shoulders."
    else if metrics.bad_posture_duration > 60 then
      some "You\x27ve had poor posture for over a minute. Take a moment to sit up straight and reset your position."
    else
      some "Your posture needs attention. Sit up straight with your back against the chair."
  else if metrics.status = .WARNING then
    match metrics.issues with
    | issue :: _ => some ("Minor posture issue: " ++ issue ++ ". Make a small adjustment.")
    | [] => none
  else
    none

/-- `PostureAnalyzer.should_alert`. -/
def should_alert (s : State) : Bool :=
  s.current_bad_posture_duration ≥ BAD_POSTURE_ALERT_THRESHOLD ∧
    get_status s ≠ PostureStatus.GOOD

end PostureAnalyzer

/-! ## screen_time_tracker.py -/

/-- `BreakType` enum. -/
inductive BreakType
  | MICRO
  | SHORT
  | LONG
deriving DecidableEq, Repr

/-- The `WorkSession` dataclass. -/
structure WorkSession where
  start_time : ℚ
  end_time : Option ℚ := none
  breaks_taken : ℕ := 0
deriving DecidableEq, Repr

/-- `WorkSession.duration` at clock time `now`.
`end = self.end_time or time.time()` uses Python truthiness: `None` and
`0.0` both fall back to the current time. -/
def WorkSession.durationAt (w : WorkSession) (now : ℚ) : ℚ :=
  let e := match w.end_time with
    | some e => if e = 0 then now else e
    | none => now
  e - w.start_time

/-- The `BreakRecommendation` dataclass. -/
structure BreakRecommendation where
  break_type : BreakType
  duration_seconds : ℚ
  reason : String
  exercises : List String
deriving DecidableEq, Repr

namespace ScreenTimeTracker

def MICRO_BREAK_INTERVAL : ℚ := 20 * 60
def SHORT_BREAK_INTERVAL : ℚ := 45 * 60
def LONG_BREAK_INTERVAL : ℚ := 90 * 60
def MICRO_BREAK_DURATION : ℚ := 20
def SHORT_BREAK_DURATION : ℚ := 5 * 60
def LONG_BREAK_DURATION : ℚ := 15 * 60
def IDLE_THRESHOLD : ℚ := 30
def ACTIVE_THRESHOLD : ℚ := 5

/-- The mutable state of a `ScreenTimeTracker` instance
(`break_compliance_history` entries: break type, timestamp, work duration). -/
structure State where
  current_session : Option WorkSession
  sessions_today : List WorkSession
  last_activity_time : ℚ
  is_user_present : Bool
  continuous_work_time : ℚ
  last_micro_break : ℚ
  last_short_break : ℚ
  last_long_break : ℚ
  total_screen_time_today : ℚ
  last_reset_date : ℕ
  idle_periods : List (ℚ × ℚ)
  break_compliance_history : List (BreakType × ℚ × ℚ)
deriving DecidableEq, Repr

/-- `ScreenTimeTracker.__init__` (constructed at time `t0`, date `d0`). -/
def init (t0 : ℚ) (d0 : ℕ) : State where
  current_session := none
  sessions_today := []
  last_activity_time := t0
  is_user_present := false
  continuous_work_time := 0
  last_micro_break := t0
  last_short_break := t0
  last_long_break := t0
  total_screen_time_today := 0
  last_reset_date := d0
  idle_periods := []
  break_compliance_history := []

/-- `ScreenTimeTracker._check_daily_reset`. -/
def check_daily_reset (s : State) (today : ℕ) : State :=
  if today ≠ s.last_reset_date then
    { s with sessions_today := [], total_screen_time_today := 0,
             last_reset_date := today }
  else s

/-- `ScreenTimeTracker._end_session`. -/
def end_session (s : State) (now : ℚ) : State :=
  match s.current_session with
  | some w =>
    let w' := { w with end_time := some now }
    { s with
      current_session := none
      sessions_today := s.sessions_today ++ [w']
      total_screen_time_today :=
        s.total_screen_time_today + w'.durationAt now }
  | none => s

/-- `ScreenTimeTracker._start_session`. -/
def start_session (s : State) (now : ℚ) : State :=
  let s := end_session s now
  { s with current_session := some { start_time := now },
           continuous_work_time := 0 }

/-- `ScreenTimeTracker.update`. -/
def update (s : State) (face_detected : Bool) (now : ℚ) (today : ℕ) : State :=
  let s := check_daily_reset s today
  if face_detected then
    let s := if !s.is_user_present then start_session s now else s
    let s := { s with is_user_present := true, last_activity_time := now }
    match s.current_session with
    | some w => { s with continuous_work_time := now - w.start_time }
    | none => s
  else
    let idle_time := now - s.last_activity_time
    if idle_time ≥ IDLE_THRESHOLD then
      let s := if s.is_user_present then
          let s' := end_session s now
          { s' with idle_periods :=
              pushBounded 50 s'.idle_periods (s'.last_activity_time, idle_time) }
        else s
      { s with is_user_present := false }
    else
      s

/-- `ScreenTimeTracker.record_break_taken`. -/
def record_break_taken (s : State) (break_type : BreakType) (now : ℚ) : State :=
  let s := match break_type with
    | .MICRO => { s with last_micro_break := now }
    | .SHORT => { s with last_short_break := now, last_micro_break := now }
    | .LONG => { s with last_long_break := now, last_short_break := now,
                        last_micro_break := now }
  let s := match s.current_session with
    | some w =>
      let w' := { w with breaks_taken := w.breaks_taken + 1 }
      { s with current_session := some w' }
    | none => s
  let hist := pushBounded 20 s.break_compliance_history
    (break_type, now, s.continuous_work_time)
  let s := { s with break_compliance_history := hist }
  { s with continuous_work_time := 0 }

/-- `ScreenTimeTracker.get_break_recommendation`.  Minute formatting in the
reason strings is abstracted by `fmt0`. -/
def get_break_recommendation (s : State) (now : ℚ) :
    Option BreakRecommendation :=
  let time_since_long := now - s.last_long_break
  if time_since_long ≥ LONG_BREAK_INTERVAL then
    some {
      break_type := .LONG
      duration_seconds := LONG_BREAK_DURATION
      reason := "You\x27ve been working for " ++ fmt0 (time_since_long / 60) ++
        " minutes. Time for a longer break."
      exercises := [
        "Stand up and stretch your whole body",
        "Take a short walk",
        "Do some light exercises or yoga",
        "Get a healthy snack and water",
        "Look out a window at distant objects"] }
  else
    let time_since_short := now - s.last_short_break
    if time_since_short ≥ SHORT_BREAK_INTERVAL then
      some {
        break_type := .SHORT
        duration_seconds := SHORT_BREAK_DURATION
        reason := "You\x27ve been working for " ++ fmt0 (time_since_short / 60) ++
          " minutes. Take a short break."
        exercises := [
          "Stand up and stretch your arms overhead",
          "Roll your shoulders backwards 10 times",
          "Tilt your head side to side gently",
          "Take 5 deep breaths",
          "Walk around for a minute"] }
    else
      let time_since_micro := now - s.last_micro_break
      if time_since_micro ≥ MICRO_BREAK_INTERVAL then
        some {
          break_type := .MICRO
          duration_seconds := MICRO_BREAK_DURATION
          reason := "Time for the 20-20-20 rule: Look at something 20 feet away for 20 seconds."
          exercises := [
            "Look at a distant object for 20 seconds",
            "Blink 20 times slowly",
            "Close your eyes and take 3 deep breaths"] }
      else
        none

/-- The dict returned by `ScreenTimeTracker.get_statistics`. -/
structure Stats where
  total_screen_time_today_minutes : ℚ
  current_session_minutes : ℚ
  continuous_work_minutes : ℚ
  sessions_count : ℕ
  average_session_minutes : ℚ
  breaks_taken_today : ℕ
  is_user_present : Bool
  time_until_micro_break : ℚ
  time_until_short_break : ℚ
  time_until_long_break : ℚ
deriving DecidableEq, Repr

/-- `ScreenTimeTracker.get_statistics`. -/
def get_statistics (s : State) (now : ℚ) : Stats :=
  let current_session_time := match s.current_session with
    | some w => w.durationAt now
    | none => 0
  let total_today := s.total_screen_time_today + current_session_time
  let closed_durations := s.sessions_today.map (fun w => w.durationAt now / 60)
  let session_durations := match s.current_session with
    | some w => closed_durations ++ [w.durationAt now / 60]
    | none => closed_durations
  let avg_session := if session_durations = [] then 0
    else session_durations.sum / (session_durations.length : ℚ)
  let closed_breaks := (s.sessions_today.map WorkSession.breaks_taken).sum
  let total_breaks := match s.current_session with
    | some w => closed_breaks + w.breaks_taken
    | none => closed_breaks
  { total_screen_time_today_minutes := total_today / 60
    current_session_minutes := current_session_time / 60
    continuous_work_minutes := s.continuous_work_time / 60
    sessions_count := s.sessions_today.length +
      (if s.current_session.isSome then 1 else 0)
    average_session_minutes := avg_session
    breaks_taken_today := total_breaks
    is_user_present := s.is_user_present
    time_until_micro_break := max 0 (MICRO_BREAK_INTERVAL - (now - s.last_micro_break))
    time_until_short_break := max 0 (SHORT_BREAK_INTERVAL - (now - s.last_short_break))
    time_until_long_break := max 0 (LONG_BREAK_INTERVAL - (now - s.last_long_break)) }

end ScreenTimeTracker

/-! ## health_monitor.py -/

/-- `OverallHealthStatus` enum. -/
inductive OverallHealthStatus
  | EXCELLENT
  | GOOD
  | FAIR
  | NEEDS_ATTENTION
deriving DecidableEq, Repr

/-- The `HealthState` dataclass.  The empty metric dicts of the
absent-user snapshot are `none`; the per-alert dict projection in
`active_alerts` (type/severity/title/message/recommendation) is modelled
by the alerts themselves (no claim reads the dropped fields). -/
structure HealthState where
  overall_status : OverallHealthStatus
  overall_score : ℚ
  eye_metrics : Option EyeHealthMetrics
  posture_metrics : Option PostureMetrics
  screen_time_stats : ScreenTimeTracker.Stats
  active_alerts : List Alert
  is_calibrating : Bool
  is_user_present : Bool

/-- The per-tick signal tuple extracted by the vision engine
(`calculate_eye_aspect_ratio`, `calculate_head_pose`,
`estimate_face_distance`); the vision engine itself is the out-of-scope
capture collaborator (spec §1, §6), so its outputs are inputs here. -/
structure Signals where
  left_ear : ℚ
  right_ear : ℚ
  head_pitch : ℚ
  head_yaw : ℚ
  head_roll : ℚ
  distance : ℚ

/-- `alert_system.create_eye_strain_alert` (the returned kwargs dict). -/
def create_eye_strain_alert (severity : AlertSeverity)
    (message recommendation : String) :
    AlertType × AlertSeverity × String × String × String :=
  let title := match severity with
    | .INFO => "Eye Care Reminder"
    | .WARNING => "Eye Strain Detected"
    | .CRITICAL => "High Eye Strain Warning"
  (AlertType.EYE_STRAIN, severity, title, message, recommendation)

/-- `alert_system.create_posture_alert` (the returned kwargs dict). -/
def create_posture_alert (severity : AlertSeverity)
    (message recommendation : String) :
    AlertType × AlertSeverity × String × String × String :=
  let title := match severity with
    | .INFO => "Posture Tip"
    | .WARNING => "Posture Check"
    | .CRITICAL => "Posture Alert"
  (AlertType.POSTURE, severity, title, message, recommendation)

/-- `alert_system.create_break_alert` (the returned kwargs dict). -/
def create_break_alert (severity : AlertSeverity)
    (message recommendation : String) :
    AlertType × AlertSeverity × String × String × String :=
  (AlertType.BREAK_NEEDED, severity, "Break Reminder", message, recommendation)

namespace HealthMonitor

/-- The state of a `HealthMonitor` instance: the owned subsystem states
(the vision engine, data logger, frame cache and callback slots are
external collaborators, spec §1/§6). -/
structure State where
  eye_tracker : EyeTracker.State
  posture_analyzer : PostureAnalyzer.State
  alert_system : AlertSystem.State
  screen_time_tracker : ScreenTimeTracker.State
  is_running : Bool

/-- `HealthMonitor.__init__` (constructed at time `t0`, date `d0`). -/
def init (t0 : ℚ) (d0 : ℕ) : State where
  eye_tracker := EyeTracker.init t0
  posture_analyzer := PostureAnalyzer.init t0
  alert_system := AlertSystem.init d0
  screen_time_tracker := ScreenTimeTracker.init t0 d0
  is_running := false

/-- `HealthMonitor._check_and_send_alerts` followed by the
`check_escalations` call, acting on the alert-system state.  `eye`,
`post` and `screen` are the already-updated tracker states of this tick;
`eyeM`/`postM` the metrics computed from them. -/
def check_and_send_alerts (als : AlertSystem.State)
    (eye : EyeTracker.State) (post : PostureAnalyzer.State)
    (screen : ScreenTimeTracker.State)
    (eyeM : EyeHealthMetrics) (postM : PostureMetrics)
    (now : ℚ) (date : ℕ) : AlertSystem.State :=
  let als :=
    if eyeM.status = .CRITICAL then
      let rec_ := (EyeTracker.get_recommendation eye now).getD
        "Take a break and rest your eyes"
      let msg := "Your eye strain score is " ++ fmt0 eyeM.eye_strain_score ++ "%"
      let (t, sev, ti, m, r) := create_eye_strain_alert .CRITICAL msg rec_
      (AlertSystem.create_alert als now date t sev ti m r).2
    else if eyeM.status = .WARNING then
      let rec_ := (EyeTracker.get_recommendation eye now).getD
        "Try to blink more often"
      let msg := "Your blink rate is lower than normal (" ++
        fmt1 eyeM.blink_rate ++ " blinks/min)"
      let (t, sev, ti, m, r) := create_eye_strain_alert .WARNING msg rec_
      (AlertSystem.create_alert als now date t sev ti m r).2
    else als
  let als :=
    if PostureAnalyzer.should_alert post then
      let rec_ := (PostureAnalyzer.get_recommendation post).getD
        "Adjust your sitting position"
      let severity : AlertSeverity :=
        if postM.status = .POOR then .CRITICAL else .WARNING
      let msg := "Poor posture detected for " ++
        fmt0 postM.bad_posture_duration ++ " seconds"
      let (t, sev, ti, m, r) := create_posture_alert severity msg rec_
      (AlertSystem.create_alert als now date t sev ti m r).2
    else als
  let als :=
    match ScreenTimeTracker.get_break_recommendation screen now with
    | some break_rec =>
      let severity : AlertSeverity :=
        if break_rec.break_type = .LONG then .WARNING else .INFO
      let (t, sev, ti, m, r) := create_break_alert severity break_rec.reason
        (String.intercalate "\n" (break_rec.exercises.take 3))
      (AlertSystem.create_alert als now date t sev ti m r).2
    | none => als
  AlertSystem.check_escalations als now

/-- `HealthMonitor._calculate_overall_score`. -/
def calculate_overall_score (eyeM : EyeHealthMetrics) (postM : PostureMetrics) :
    ℚ :=
  let eye_score := 100 - eyeM.eye_strain_score
  let overall := eye_score * (5/10) + postM.posture_score * (5/10)
  max 0 (min 100 overall)

/-- `HealthMonitor._determine_overall_status`. -/
def determine_overall_status (score : ℚ) : OverallHealthStatus :=
  if score ≥ 85 then .EXCELLENT
  else if score ≥ 70 then .GOOD
  else if score ≥ 50 then .FAIR
  else .NEEDS_ATTENTION

/-- `HealthMonitor.process_frame`.  `frame_available` stands for
`vision_engine.get_frame()` returning a frame; `signals` is `none` when
`vision_engine.process_frame(frame)` detects no face landmarks, otherwise
the extracted signal tuple.  Data logging (`_log_data`) touches only the
external persistence collaborator. -/
def process_frame (m : State) (now : ℚ) (date : ℕ) (frame_available : Bool)
    (signals : Option Signals) : Option HealthState × State :=
  if !m.is_running then
    (none, m)
  else if !frame_available then
    (none, m)
  else
    let face_detected := signals.isSome
    let screen := ScreenTimeTracker.update m.screen_time_tracker face_detected now date
    match signals with
    | none =>
      let hs : HealthState := {
        overall_status := .GOOD
        overall_score := 100
        eye_metrics := none
        posture_metrics := none
        screen_time_stats := ScreenTimeTracker.get_statistics screen now
        active_alerts := AlertSystem.get_active_alerts m.alert_system
        is_calibrating := false
        is_user_present := false }
      (some hs, { m with screen_time_tracker := screen })
    | some sig =>
      let eye := (EyeTracker.update m.eye_tracker sig.left_ear sig.right_ear now).2
      let post := PostureAnalyzer.update m.posture_analyzer
        (sig.head_pitch, sig.head_yaw, sig.head_roll) sig.distance now
      let eyeM := EyeTracker.get_metrics eye now
      let postM := PostureAnalyzer.get_metrics post
      let screen_stats := ScreenTimeTracker.get_statistics screen now
      let als := check_and_send_alerts m.alert_system eye post screen eyeM postM now date
      let overall_score := calculate_overall_score eyeM postM
      let overall_status := determine_overall_status overall_score
      let is_calibrating := eye.is_calibrating || post.is_calibrating
      let hs : HealthState := {
        overall_status := overall_status
        overall_score := overall_score
        eye_metrics := some eyeM
        posture_metrics := some postM
        screen_time_stats := screen_stats
        active_alerts := AlertSystem.get_active_alerts als
        is_calibrating := is_calibrating
        is_user_present := true }
      (some hs, { m with
        eye_tracker := eye
        posture_analyzer := post
        alert_system := als
        screen_time_tracker := screen })

end HealthMonitor

/-! ## Concrete scenario states used by witnesses and counterexamples -/

/-- Drive a `ScreenTimeTracker` with a list of `(presence, time)` ticks
(fixed date `0`). -/
def runTicks (s : ScreenTimeTracker.State) (ts : List (Bool × ℚ)) :
    ScreenTimeTracker.State :=
  ts.foldl (fun s pt => ScreenTimeTracker.update s pt.1 pt.2 0) s

/-- The presence sequence `[true]*100 ++ [false]*40`, one tick per second
starting at `t = 0`. -/
def ticks140 : List (Bool × ℚ) :=
  ((List.range 100).map (fun i => (true, (i : ℚ)))) ++
  ((List.range 40).map (fun i => (false, (100 + i : ℚ))))

/-- The tracker state after driving a fresh tracker with `ticks140`. -/
def c3final : ScreenTimeTracker.State :=
  runTicks (ScreenTimeTracker.init 0 0) ticks140

/-- An alert-system state with an armed escalation for `EYE_STRAIN` at
time `100` and one unacknowledged active alert of that type. -/
def c2state : AlertSystem.State :=
  let base := AlertSystem.init 0
  let pend := Function.update base.pending_escalations AlertType.EYE_STRAIN (some 100)
  let a : Alert := {
    alert_type := .EYE_STRAIN
    severity := .WARNING
    title := "t"
    message := "m"
    recommendation := "r"
    timestamp := 40 }
  { base with
    active_alerts := [a]
    pending_escalations := pend }

/-- An eye-tracker state in the middle of a closed-eye interval that
began at time `90` (calibration already over). -/
def c4state : EyeTracker.State :=
  { EyeTracker.init 0 with
    is_eye_closed := true
    eye_close_start_time := some 90
    is_calibrating := false }

/-- A running monitor whose alert engine has an armed `EYE_STRAIN`
escalation, already expired at time `100`, with a matching
unacknowledged active alert: a tick that skips `check_escalations`
leaves the armed timer in place. -/
def c9monitor : HealthMonitor.State :=
  { HealthMonitor.init 0 0 with
    is_running := true
    alert_system := c2state }

/-- A fresh running monitor (both trackers still calibrating). -/
def freshMonitor : HealthMonitor.State :=
  { HealthMonitor.init 0 0 with is_running := true }

/-- A neutral signal tuple for concrete present-tick runs. -/
def sigNeutral : Signals :=
  { left_ear := 3/10, right_ear := 3/10, head_pitch := 0, head_yaw := 0,
    head_roll := 0, distance := 40 }

/-! ## Helper lemmas (shared) -/

lemma can_send_alert_not_paused (s : AlertSystem.State) (now : ℚ)
    (t : AlertType) (hp : s.is_paused = false) :
    AlertSystem.can_send_alert s now t =
      (decide (now - s.last_alert_times t ≥ AlertSystem.COOLDOWN_PERIODS t), s) := by
  unfold AlertSystem.can_send_alert
  rw [hp]
  simp

lemma create_alert_blocked (s s' : AlertSystem.State) (now : ℚ) (date : ℕ)
    (t : AlertType) (sev : AlertSeverity) (ti m r : String)
    (h : AlertSystem.can_send_alert s now t = (false, s')) :
    AlertSystem.create_alert s now date t sev ti m r = (none, s') := by
  unfold AlertSystem.create_alert
  rw [h]
  simp

lemma create_alert_success_fields (s : AlertSystem.State) (now : ℚ) (date : ℕ)
    (t : AlertType) (sev : AlertSeverity) (ti m r : String)
    (hp : s.is_paused = false)
    (hok : AlertSystem.COOLDOWN_PERIODS t ≤ now - s.last_alert_times t) :
    (AlertSystem.create_alert s now date t sev ti m r).1.isSome = true ∧
    (AlertSystem.create_alert s now date t sev ti m r).2.is_paused = false ∧
    (AlertSystem.create_alert s now date t sev ti m r).2.last_alert_times t = now := by
  unfold AlertSystem.create_alert
  rw [can_send_alert_not_paused s now t hp]
  rw [decide_eq_true (show now - s.last_alert_times t ≥ _ from hok)]
  dsimp only [AlertSystem.schedule_escalation]
  split_ifs <;> simp_all [Function.update]

/-! ## Claims -/

/-- C1: for every alert type, a successful `create_alert` followed by a
second call within the type's cooldown window creates exactly one alert:
the second call returns `none` and leaves the entire engine state (active
set, history, last-sent time, daily counter) unchanged, while a third
call after the cooldown has elapsed creates a second alert. -/
theorem create_alert_cooldown_window (s : AlertSystem.State) (t : AlertType)
    (sev sev' : AlertSeverity) (ti m r ti' m' r' : String)
    (τ₁ τ₂ τ₃ : ℚ) (d : ℕ)
    (hp : s.is_paused = false)
    (h1 : AlertSystem.COOLDOWN_PERIODS t ≤ τ₁ - s.last_alert_times t)
    (h2 : τ₂ - τ₁ < AlertSystem.COOLDOWN_PERIODS t)
    (h3 : AlertSystem.COOLDOWN_PERIODS t ≤ τ₃ - τ₁) :
    (AlertSystem.create_alert s τ₁ d t sev ti m r).1.isSome = true ∧
    AlertSystem.create_alert (AlertSystem.create_alert s τ₁ d t sev ti m r).2
        τ₂ d t sev' ti' m' r' =
      (none, (AlertSystem.create_alert s τ₁ d t sev ti m r).2) ∧
    (AlertSystem.create_alert (AlertSystem.create_alert s τ₁ d t sev ti m r).2
        τ₃ d t sev' ti' m' r').1.isSome = true := by
  obtain ⟨hsome, hp1, hlast⟩ := create_alert_success_fields s τ₁ d t sev ti m r hp h1
  refine ⟨hsome, ?_, ?_⟩
  · apply create_alert_blocked
    rw [can_send_alert_not_paused _ _ _ hp1, hlast]
    rw [decide_eq_false (by exact fun hge => absurd h2 (not_lt.mpr hge))]
  · obtain ⟨hsome3, _, _⟩ :=
      create_alert_success_fields _ τ₃ d t sev' ti' m' r' hp1 (by rw [hlast]; exact h3)
    exact hsome3

/-- C1 witness: concrete instantiation on a fresh engine, `EYE_STRAIN`
(cooldown 120s), calls at times 200, 250 and 400. -/
theorem create_alert_cooldown_window_witness :
    (AlertSystem.create_alert (AlertSystem.init 0) 200 0 .EYE_STRAIN .WARNING
      "t" "m" "r").1.isSome = true ∧
    AlertSystem.create_alert
        (AlertSystem.create_alert (AlertSystem.init 0) 200 0 .EYE_STRAIN .WARNING
          "t" "m" "r").2 250 0 .EYE_STRAIN .WARNING "t" "m" "r" =
      (none, (AlertSystem.create_alert (AlertSystem.init 0) 200 0 .EYE_STRAIN .WARNING
        "t" "m" "r").2) ∧
    (AlertSystem.create_alert
        (AlertSystem.create_alert (AlertSystem.init 0) 200 0 .EYE_STRAIN .WARNING
          "t" "m" "r").2 400 0 .EYE_STRAIN .WARNING "t" "m" "r").1.isSome = true :=
  create_alert_cooldown_window (AlertSystem.init 0) .EYE_STRAIN .WARNING .WARNING
    "t" "m" "r" "t" "m" "r" 200 250 400 0 rfl
    (by norm_num [AlertSystem.init, AlertSystem.COOLDOWN_PERIODS])
    (by norm_num [AlertSystem.COOLDOWN_PERIODS])
    (by norm_num [AlertSystem.COOLDOWN_PERIODS])

/-- C2: with an armed escalation timer for type `t` at time `τ`:
running `check_escalations` at `now ≥ τ` increments the type's count by
exactly one when an unacknowledged active alert of that type exists, and
clears the armed timer either way (no increment without such an alert);
acknowledging an alert of that type removes the armed timer and resets
the count to 0, so a later `check_escalations` leaves the count at 0. -/
theorem escalation_protocol (s : AlertSystem.State) (t : AlertType)
    (τ now : ℚ) (harm : s.pending_escalations t = some τ) :
    (now ≥ τ →
      (s.active_alerts.filter
        (fun a => a.alert_type = t ∧ a.acknowledged = false)) ≠ [] →
      (AlertSystem.check_escalations s now).escalation_counts t =
        s.escalation_counts t + 1 ∧
      (AlertSystem.check_escalations s now).pending_escalations t = none) ∧
    (now ≥ τ →
      (s.active_alerts.filter
        (fun a => a.alert_type = t ∧ a.acknowledged = false)) = [] →
      (AlertSystem.check_escalations s now).escalation_counts t =
        s.escalation_counts t ∧
      (AlertSystem.check_escalations s now).pending_escalations t = none) ∧
    (∀ a : Alert, a.alert_type = t →
      (AlertSystem.acknowledge_alert s a).pending_escalations t = none ∧
      (AlertSystem.acknowledge_alert s a).escalation_counts t = 0 ∧
      ∀ now' : ℚ,
        (AlertSystem.check_escalations (AlertSystem.acknowledge_alert s a)
          now').escalation_counts t = 0) := by
  refine ⟨?_, ?_, ?_⟩
  · intro hnow hne
    simp [AlertSystem.check_escalations, harm, hnow, hne]
    simpa using hne
  · intro hnow hempty
    simp [AlertSystem.check_escalations, harm, hnow, hempty]
    simpa using hempty
  · intro a ha
    subst ha
    refine ⟨?_, ?_, ?_⟩
    · simp [AlertSystem.acknowledge_alert, Function.update]
    · simp [AlertSystem.acknowledge_alert, Function.update]
    · intro now'
      simp [AlertSystem.check_escalations, AlertSystem.acknowledge_alert,
        Function.update]

/-- C2 witness: an engine with an armed `EYE_STRAIN` escalation at time
100 and one unacknowledged active alert, checked at time 150. -/
theorem escalation_protocol_witness :
    (AlertSystem.check_escalations c2state 150).escalation_counts
        .EYE_STRAIN = c2state.escalation_counts .EYE_STRAIN + 1 ∧
    (AlertSystem.check_escalations c2state 150).pending_escalations
        .EYE_STRAIN = none :=
  (escalation_protocol c2state .EYE_STRAIN 100 150
    (by simp [c2state, AlertSystem.init, Function.update])).1
    (by norm_num) (by decide)


/-- Evaluation of the C3 scenario: the tracker state after
`[true]*100 ++ [false]*40` (one tick per second from `t = 0`). -/
lemma c3final_eq : c3final = {
    current_session := none
    sessions_today := [{ start_time := 0, end_time := some 129, breaks_taken := 0 }]
    last_activity_time := 99
    is_user_present := false
    continuous_work_time := 99
    last_micro_break := 0
    last_short_break := 0
    last_long_break := 0
    total_screen_time_today := 129
    last_reset_date := 0
    idle_periods := [(99, 30)]
    break_compliance_history := [] } := by
  set_option maxHeartbeats 4000000 in
  norm_num [c3final, runTicks, ticks140, List.range_succ, ScreenTimeTracker.update,
    ScreenTimeTracker.check_daily_reset, ScreenTimeTracker.start_session,
    ScreenTimeTracker.end_session, ScreenTimeTracker.init, WorkSession.durationAt,
    pushBounded, ScreenTimeTracker.IDLE_THRESHOLD]

/-- C3 counterexample: driving a fresh tracker with `[true]*100 ++
[false]*40` (one tick per second from `t = 0`) closes exactly one session,
but its recorded duration is `129` seconds — the idle threshold fires at
`t = 129` (30s after the last presence tick at `t = 99`) and
`end_time - start_time = 129 - 0` — which is neither the 100 seconds of
presence ticks nor the 99-second presence span, refuting "its recorded
duration equals the elapsed presence time". -/
theorem screen_session_duration_counterexample :
    c3final.sessions_today =
      [{ start_time := 0, end_time := some 129, breaks_taken := 0 }] ∧
    (c3final.sessions_today.map (fun w => w.durationAt 139)) = [129] ∧
    (129 : ℚ) ≠ 100 ∧ (129 : ℚ) ≠ 99 := by
  rw [c3final_eq]
  norm_num [WorkSession.durationAt]

/-- C3 amended: the sequence `[true]*100 ++ [false]*40` closes exactly
one session; its recorded duration is the elapsed time from session start
to the tick at which the idle threshold fires, i.e. the 99-second
presence span plus the 30-second idle threshold = 129 seconds (not the
bare presence time); a subsequent present tick at `t = 140` opens a new
session. -/
theorem screen_session_close_and_reopen :
    c3final.sessions_today.length = 1 ∧
    c3final.sessions_today =
      [{ start_time := 0, end_time := some 129, breaks_taken := 0 }] ∧
    (c3final.sessions_today.map (fun w => w.durationAt 139)) = [99 + 30] ∧
    c3final.total_screen_time_today = 129 ∧
    c3final.current_session = none ∧
    c3final.is_user_present = false ∧
    (ScreenTimeTracker.update c3final true 140 0).current_session =
      some { start_time := 140 } ∧
    (ScreenTimeTracker.update c3final true 140 0).sessions_today.length = 1 := by
  rw [c3final_eq]
  norm_num [WorkSession.durationAt, ScreenTimeTracker.update,
    ScreenTimeTracker.check_daily_reset, ScreenTimeTracker.start_session,
    ScreenTimeTracker.end_session, ScreenTimeTracker.IDLE_THRESHOLD]

/-- C6: invalid signal inputs are not rejected or clamped at the tracker
boundary: a negative eye-openness ratio (-1) on a fresh eye tracker is
stored verbatim in the rolling EAR history, becomes the trailing mean,
and drives the tightness tier of the strain score (score 60 at `t = 5`:
+40 zero-blink-rate tier, +20 tightness tier fed by the corrupt mean);
an out-of-range head pitch (200°) and a negative screen distance (-50cm)
likewise enter the posture histories and the posture score (40). -/
theorem invalid_input_propagates :
    (EyeTracker.update (EyeTracker.init 0) (-1) (-1) 5).2.ear_history = [-1] ∧
    EyeTracker.avg_ear_of (EyeTracker.update (EyeTracker.init 0) (-1) (-1) 5).2 = -1 ∧
    EyeTracker.calculate_eye_strain_score
      (EyeTracker.update (EyeTracker.init 0) (-1) (-1) 5).2 5 = 60 ∧
    (PostureAnalyzer.update (PostureAnalyzer.init 0) (200, 0, 0) (-50) 5).pitch_history
      = [200] ∧
    (PostureAnalyzer.update (PostureAnalyzer.init 0) (200, 0, 0) (-50) 5).distance_history
      = [-50] ∧
    PostureAnalyzer.calculate_posture_score
      (PostureAnalyzer.update (PostureAnalyzer.init 0) (200, 0, 0) (-50) 5) = 40 := by
  refine ⟨?_, ?_, ?_, ?_, ?_, ?_⟩ <;>
    norm_num [EyeTracker.update, EyeTracker.init, pushBounded,
      EyeTracker.EAR_BLINK_THRESHOLD, EyeTracker.calibration_duration,
      EyeTracker.complete_calibration, EyeTracker.avg_ear_of,
      EyeTracker.calculate_eye_strain_score, EyeTracker.get_current_blink_rate,
      EyeTracker.strain_score_core, EyeTracker.BLINK_HISTORY_WINDOW,
      EyeTracker.CRITICAL_BLINK_RATE, EyeTracker.WARNING_BLINK_RATE,
      EyeTracker.HEALTHY_BLINK_RATE_MIN,
      PostureAnalyzer.update, PostureAnalyzer.init, PostureAnalyzer.calibration_duration,
      PostureAnalyzer.complete_calibration, PostureAnalyzer.calculate_posture_score,
      PostureAnalyzer.get_smoothed_values, PostureAnalyzer.get_status,
      PostureAnalyzer.FORWARD_HEAD_CRITICAL, PostureAnalyzer.FORWARD_HEAD_WARNING,
      PostureAnalyzer.HEAD_ROLL_CRITICAL, PostureAnalyzer.HEAD_ROLL_WARNING,
      PostureAnalyzer.HEAD_TILT_CRITICAL, PostureAnalyzer.HEAD_TILT_WARNING,
      PostureAnalyzer.CRITICAL_DISTANCE_MIN, PostureAnalyzer.WARNING_DISTANCE_MIN,
      PostureAnalyzer.IDEAL_DISTANCE_MIN, PostureAnalyzer.IDEAL_DISTANCE_MAX] <;>
    simp <;> norm_num

lemma complete_calibration_blink_history (x : EyeTracker.State) :
    (EyeTracker.complete_calibration x).blink_history = x.blink_history := by
  unfold EyeTracker.complete_calibration
  split_ifs <;> rfl

lemma complete_calibration_last_blink_time (x : EyeTracker.State) :
    (EyeTracker.complete_calibration x).last_blink_time = x.last_blink_time := by
  unfold EyeTracker.complete_calibration
  split_ifs <;> rfl

lemma calib_step_blink_history (c : Prop) [Decidable c] (x : EyeTracker.State) :
    (if c then EyeTracker.complete_calibration x else x).blink_history =
      x.blink_history := by
  split_ifs with hc
  · exact complete_calibration_blink_history x
  · rfl

lemma calib_step_last_blink_time (c : Prop) [Decidable c] (x : EyeTracker.State) :
    (if c then EyeTracker.complete_calibration x else x).last_blink_time =
      x.last_blink_time := by
  split_ifs with hc
  · exact complete_calibration_last_blink_time x
  · rfl

/-- C4: on a closed-to-open transition (average EAR no longer below the
0.21 threshold while the eye was closed since `t0`), a closed interval of
duration `now - t0` inside `[0.05s, 0.5s]` records exactly one
`BlinkEvent` of that duration and updates `last_blink_time`; a duration
outside the band records nothing and leaves `last_blink_time` alone; and
any tick without such a transition (average EAR below the threshold, or
eyes not currently closed) records no `BlinkEvent`. -/
theorem blink_band_detection (s : EyeTracker.State) (l r now t0 : ℚ)
    (hopen : ¬((l + r) / 2 < EyeTracker.EAR_BLINK_THRESHOLD))
    (hclosed : s.is_eye_closed = true)
    (hstart : s.eye_close_start_time = some t0)
    (ht0 : t0 ≠ 0) :
    (EyeTracker.MIN_BLINK_DURATION ≤ now - t0 ∧
        now - t0 ≤ EyeTracker.MAX_BLINK_DURATION →
      (EyeTracker.update s l r now).1 =
        some { timestamp := now, duration := now - t0 } ∧
      (EyeTracker.update s l r now).2.blink_history =
        pushBounded 100 s.blink_history { timestamp := now, duration := now - t0 } ∧
      (EyeTracker.update s l r now).2.last_blink_time = now) ∧
    (¬(EyeTracker.MIN_BLINK_DURATION ≤ now - t0 ∧
        now - t0 ≤ EyeTracker.MAX_BLINK_DURATION) →
      (EyeTracker.update s l r now).1 = none ∧
      (EyeTracker.update s l r now).2.blink_history = s.blink_history ∧
      (EyeTracker.update s l r now).2.last_blink_time = s.last_blink_time) ∧
    (∀ (s' : EyeTracker.State) (a b τ : ℚ),
      ((a + b) / 2 < EyeTracker.EAR_BLINK_THRESHOLD ∨ s'.is_eye_closed = false) →
      (EyeTracker.update s' a b τ).1 = none ∧
      (EyeTracker.update s' a b τ).2.blink_history = s'.blink_history) := by
  refine ⟨?_, ?_, ?_⟩
  · intro hband
    simp only [EyeTracker.update, hstart, hclosed, Option.getD_some]
    rw [if_neg hopen]
    rw [if_pos (by simp [ht0])]
    rw [if_pos hband]
    split_ifs <;> simp [calib_step_blink_history, calib_step_last_blink_time,
      complete_calibration_blink_history, complete_calibration_last_blink_time]
  · intro hband
    simp only [EyeTracker.update, hstart, hclosed, Option.getD_some]
    rw [if_neg hopen]
    rw [if_pos (by simp [ht0])]
    rw [if_neg hband]
    split_ifs <;> simp [calib_step_blink_history, calib_step_last_blink_time,
      complete_calibration_blink_history, complete_calibration_last_blink_time]
  · intro s' a b τ h
    rcases h with h | h
    · simp only [EyeTracker.update]
      rw [if_pos h]
      split_ifs <;>
        simp [calib_step_blink_history, calib_step_last_blink_time,
          complete_calibration_blink_history, complete_calibration_last_blink_time]
    · simp only [EyeTracker.update, h]
      split_ifs <;>
        simp_all [calib_step_blink_history, calib_step_last_blink_time,
          complete_calibration_blink_history, complete_calibration_last_blink_time]

/-- C4 witness: an eye closed since `t = 90` reopening at `t = 90.1`
(EAR 0.3 on both eyes): the 0.1s blink is recorded. -/
theorem blink_band_detection_witness :
    (EyeTracker.update c4state (3/10) (3/10) (901/10)).1 =
      some { timestamp := 901/10, duration := 901/10 - 90 } ∧
    (EyeTracker.update c4state (3/10) (3/10) (901/10)).2.blink_history =
      pushBounded 100 c4state.blink_history
        { timestamp := 901/10, duration := 901/10 - 90 } ∧
    (EyeTracker.update c4state (3/10) (3/10) (901/10)).2.last_blink_time =
      901/10 :=
  (blink_band_detection c4state (3/10) (3/10) (901/10) 90
    (by norm_num [EyeTracker.EAR_BLINK_THRESHOLD]) rfl rfl (by norm_num)).1
    ⟨by norm_num [EyeTracker.MIN_BLINK_DURATION],
     by norm_num [EyeTracker.MAX_BLINK_DURATION]⟩

/-- C5: `get_break_recommendation` checks tiers in priority order long,
short, micro: whenever the long interval is overdue (in particular when
all three are) it returns the long recommendation, never short or micro;
otherwise the first overdue of short then micro; and `none` when no tier
is overdue. -/
theorem break_priority (s : ScreenTimeTracker.State) (now : ℚ) :
    (now - s.last_long_break ≥ ScreenTimeTracker.LONG_BREAK_INTERVAL →
      ∃ rec, ScreenTimeTracker.get_break_recommendation s now = some rec ∧
        rec.break_type = .LONG) ∧
    (¬(now - s.last_long_break ≥ ScreenTimeTracker.LONG_BREAK_INTERVAL) →
      now - s.last_short_break ≥ ScreenTimeTracker.SHORT_BREAK_INTERVAL →
      ∃ rec, ScreenTimeTracker.get_break_recommendation s now = some rec ∧
        rec.break_type = .SHORT) ∧
    (¬(now - s.last_long_break ≥ ScreenTimeTracker.LONG_BREAK_INTERVAL) →
      ¬(now - s.last_short_break ≥ ScreenTimeTracker.SHORT_BREAK_INTERVAL) →
      now - s.last_micro_break ≥ ScreenTimeTracker.MICRO_BREAK_INTERVAL →
      ∃ rec, ScreenTimeTracker.get_break_recommendation s now = some rec ∧
        rec.break_type = .MICRO) ∧
    (¬(now - s.last_long_break ≥ ScreenTimeTracker.LONG_BREAK_INTERVAL) →
      ¬(now - s.last_short_break ≥ ScreenTimeTracker.SHORT_BREAK_INTERVAL) →
      ¬(now - s.last_micro_break ≥ ScreenTimeTracker.MICRO_BREAK_INTERVAL) →
      ScreenTimeTracker.get_break_recommendation s now = none) := by
  refine ⟨?_, ?_, ?_, ?_⟩
  · intro hl
    unfold ScreenTimeTracker.get_break_recommendation
    rw [if_pos hl]
    exact ⟨_, rfl, rfl⟩
  · intro hl hs
    unfold ScreenTimeTracker.get_break_recommendation
    rw [if_neg hl, if_pos hs]
    exact ⟨_, rfl, rfl⟩
  · intro hl hs hm
    unfold ScreenTimeTracker.get_break_recommendation
    rw [if_neg hl, if_neg hs, if_pos hm]
    exact ⟨_, rfl, rfl⟩
  · intro hl hs hm
    unfold ScreenTimeTracker.get_break_recommendation
    rw [if_neg hl, if_neg hs, if_neg hm]

/-- C5 witness: a fresh tracker (all break timestamps 0) queried at
`t = 5400` (90 min): all three tiers are overdue and the long
recommendation is returned. -/
theorem break_priority_witness :
    ∃ rec, ScreenTimeTracker.get_break_recommendation
        (ScreenTimeTracker.init 0 0) 5400 = some rec ∧
      rec.break_type = .LONG :=
  (break_priority (ScreenTimeTracker.init 0 0) 5400).1
    (by norm_num [ScreenTimeTracker.init, ScreenTimeTracker.LONG_BREAK_INTERVAL])

lemma tier_step_anti3 (c1 c2 c3 : Prop) [Decidable c1] [Decidable c2]
    [Decidable c3] {s₁ s₂ v1 v2 v3 : ℚ} (h : s₂ ≤ s₁) :
    (if c1 then s₂ + v1 else if c2 then s₂ + v2 else if c3 then s₂ + v3 else s₂) ≤
    (if c1 then s₁ + v1 else if c2 then s₁ + v2 else if c3 then s₁ + v3 else s₁) := by
  split_ifs <;> linarith

lemma tier_step_anti2 (c1 c2 : Prop) [Decidable c1] [Decidable c2]
    {s₁ s₂ v1 v2 : ℚ} (h : s₂ ≤ s₁) :
    (if c1 then s₂ + v1 else if c2 then s₂ + v2 else s₂) ≤
    (if c1 then s₁ + v1 else if c2 then s₁ + v2 else s₁) := by
  split_ifs <;> linarith

lemma rate_tier_anti {r₁ r₂ : ℚ} (h : r₁ ≤ r₂) :
    (if r₂ < EyeTracker.CRITICAL_BLINK_RATE then (0:ℚ) + 40
      else if r₂ < EyeTracker.WARNING_BLINK_RATE then 0 + 25
      else if r₂ < EyeTracker.HEALTHY_BLINK_RATE_MIN then 0 + 10 else 0) ≤
    (if r₁ < EyeTracker.CRITICAL_BLINK_RATE then (0:ℚ) + 40
      else if r₁ < EyeTracker.WARNING_BLINK_RATE then 0 + 25
      else if r₁ < EyeTracker.HEALTHY_BLINK_RATE_MIN then 0 + 10 else 0) := by
  split_ifs <;> linarith

lemma dev_tier_anti (x : ℚ) {r₁ r₂ s₁ s₂ : ℚ} (hx : 0 < x) (h12 : r₁ ≤ r₂)
    (hs : s₂ ≤ s₁) :
    (if x ≠ 0 then
        if (x - r₂) / x > 5/10 then s₂ + 15
        else if (x - r₂) / x > 3/10 then s₂ + 8 else s₂
      else s₂) ≤
    (if x ≠ 0 then
        if (x - r₁) / x > 5/10 then s₁ + 15
        else if (x - r₁) / x > 3/10 then s₁ + 8 else s₁
      else s₁) := by
  have hdev : (x - r₂) / x ≤ (x - r₁) / x :=
    (div_le_div_right hx).mpr (by linarith)
  split_ifs <;> linarith [hdev]

lemma tier_step_nonneg3 (c1 c2 c3 : Prop) [Decidable c1] [Decidable c2]
    [Decidable c3] {s v1 v2 v3 : ℚ} (hs : 0 ≤ s) (h1 : 0 ≤ v1) (h2 : 0 ≤ v2)
    (h3 : 0 ≤ v3) :
    0 ≤ if c1 then s + v1 else if c2 then s + v2 else if c3 then s + v3 else s := by
  split_ifs <;> linarith

lemma tier_step_nonneg2 (c1 c2 : Prop) [Decidable c1] [Decidable c2]
    {s v1 v2 : ℚ} (hs : 0 ≤ s) (h1 : 0 ≤ v1) (h2 : 0 ≤ v2) :
    0 ≤ if c1 then s + v1 else if c2 then s + v2 else s := by
  split_ifs <;> linarith

lemma dev_tier_nonneg (x r s : ℚ) (hs : 0 ≤ s) :
    0 ≤ if x ≠ 0 then
        if (x - r) / x > 5/10 then s + 15
        else if (x - r) / x > 3/10 then s + 8 else s
      else s := by
  split_ifs <;> linarith

/-- C7: with time-since-last-blink, mean EAR and the baseline held
fixed, the eye-strain tier formula is monotonically non-decreasing as
the blink rate decreases (for any realizable baseline, i.e. positive or
absent), and for every input the score lies in [0, 100]. -/
theorem strain_score_monotone_and_range (t e : ℚ) (b : Option ℚ)
    (hb : ∀ x, b = some x → 0 < x) (r₁ r₂ : ℚ) (h12 : r₁ ≤ r₂) :
    EyeTracker.strain_score_core r₂ t e b ≤
      EyeTracker.strain_score_core r₁ t e b ∧
    (∀ (r t' e' : ℚ) (b' : Option ℚ),
      0 ≤ EyeTracker.strain_score_core r t' e' b' ∧
      EyeTracker.strain_score_core r t' e' b' ≤ 100) := by
  constructor
  · unfold EyeTracker.strain_score_core
    rcases b with _ | x
    · dsimp
      exact min_le_min le_rfl
        (tier_step_anti2 _ _ (tier_step_anti3 _ _ _ (rate_tier_anti h12)))
    · have hx := hb x rfl
      dsimp
      exact min_le_min le_rfl
        (dev_tier_anti x hx h12
          (tier_step_anti2 _ _ (tier_step_anti3 _ _ _ (rate_tier_anti h12))))
  · intro r t' e' b'
    unfold EyeTracker.strain_score_core
    have hrate : (0:ℚ) ≤
        (if r < EyeTracker.CRITICAL_BLINK_RATE then (0:ℚ) + 40
          else if r < EyeTracker.WARNING_BLINK_RATE then 0 + 25
          else if r < EyeTracker.HEALTHY_BLINK_RATE_MIN then 0 + 10 else 0) := by
      split_ifs <;> norm_num
    rcases b' with _ | x
    · dsimp
      exact ⟨le_min (by norm_num)
        (tier_step_nonneg2 _ _
          (tier_step_nonneg3 _ _ _ hrate (by norm_num) (by norm_num) (by norm_num))
          (by norm_num) (by norm_num)),
        min_le_left _ _⟩
    · dsimp
      exact ⟨le_min (by norm_num)
        (dev_tier_nonneg x r _
          (tier_step_nonneg2 _ _
            (tier_step_nonneg3 _ _ _ hrate (by norm_num) (by norm_num) (by norm_num))
            (by norm_num) (by norm_num))),
        min_le_left _ _⟩

/-- C7 witness: lowering the blink rate from 1 to 0 (no baseline) does
not decrease the score, and the score at a concrete input with baseline
10 lies in [0, 100]. -/
theorem strain_score_monotone_and_range_witness :
    EyeTracker.strain_score_core 1 0 (1/4) none ≤
      EyeTracker.strain_score_core 0 0 (1/4) none ∧
    0 ≤ EyeTracker.strain_score_core 5 20 (1/4) (some 10) ∧
    EyeTracker.strain_score_core 5 20 (1/4) (some 10) ≤ 100 := by
  have h := strain_score_monotone_and_range 0 (1/4) none
    (fun x hx => by cases hx) 0 1 (by norm_num)
  exact ⟨h.1, (h.2 5 20 (1/4) (some 10)).1, (h.2 5 20 (1/4) (some 10)).2⟩

/-- C8: `should_alert` returns true exactly when the current bad-posture
duration is at least the 30-second threshold and the current status is
not good; in particular it is false for any duration below 30 seconds
regardless of status. -/
theorem should_alert_iff (s : PostureAnalyzer.State) :
    (PostureAnalyzer.should_alert s = true ↔
      (PostureAnalyzer.BAD_POSTURE_ALERT_THRESHOLD ≤
          s.current_bad_posture_duration ∧
        PostureAnalyzer.get_status s ≠ .GOOD)) ∧
    (s.current_bad_posture_duration <
        PostureAnalyzer.BAD_POSTURE_ALERT_THRESHOLD →
      PostureAnalyzer.should_alert s = false) := by
  constructor
  · unfold PostureAnalyzer.should_alert
    simp [ge_iff_le]
  · intro h
    unfold PostureAnalyzer.should_alert
    simp [ge_iff_le]
    intro hge
    exact absurd h (not_lt.mpr hge)

/-- C8 witness: a freshly constructed analyzer (duration 0) does not
alert. -/
theorem should_alert_iff_witness :
    PostureAnalyzer.should_alert (PostureAnalyzer.init 0) = false :=
  (should_alert_iff (PostureAnalyzer.init 0)).2
    (by norm_num [PostureAnalyzer.init, PostureAnalyzer.BAD_POSTURE_ALERT_THRESHOLD])

lemma can_send_alert_esc_count (s : AlertSystem.State) (now : ℚ) (t : AlertType) :
    (AlertSystem.can_send_alert s now t).2.esc_check_count = s.esc_check_count := by
  unfold AlertSystem.can_send_alert
  dsimp only
  split_ifs <;> rfl

lemma create_alert_esc_count (s : AlertSystem.State) (now : ℚ) (d : ℕ)
    (t : AlertType) (sev : AlertSeverity) (a b c : String) :
    (AlertSystem.create_alert s now d t sev a b c).2.esc_check_count =
      s.esc_check_count := by
  have hcs := can_send_alert_esc_count s now t
  unfold AlertSystem.create_alert
  rcases hE : AlertSystem.can_send_alert s now t with ⟨ok, s1⟩
  rw [hE] at hcs
  dsimp at hcs ⊢
  unfold AlertSystem.schedule_escalation
  split_ifs <;> simp_all

lemma check_and_send_alerts_esc_count (als : AlertSystem.State)
    (eye : EyeTracker.State) (post : PostureAnalyzer.State)
    (screen : ScreenTimeTracker.State) (eyeM : EyeHealthMetrics)
    (postM : PostureMetrics) (now : ℚ) (d : ℕ) :
    (HealthMonitor.check_and_send_alerts als eye post screen eyeM postM
      now d).esc_check_count = als.esc_check_count + 1 := by
  unfold HealthMonitor.check_and_send_alerts
  simp only [create_eye_strain_alert, create_posture_alert, create_break_alert]
  simp only [AlertSystem.check_escalations]
  repeat' split
  all_goals simp [create_alert_esc_count]

/-- C9 amended: on every face-detected snapshot tick of a running
monitor, `check_escalations` is invoked exactly once (the ghost
invocation counter increments by one); on a face-absent snapshot tick it
is not invoked at all (the counter is unchanged). -/
theorem check_escalations_per_tick (m : HealthMonitor.State) (now : ℚ) (d : ℕ)
    (sig : Signals) (hrun : m.is_running = true) :
    (HealthMonitor.process_frame m now d true (some sig)).2.alert_system.esc_check_count =
      m.alert_system.esc_check_count + 1 ∧
    (HealthMonitor.process_frame m now d true none).2.alert_system.esc_check_count =
      m.alert_system.esc_check_count := by
  refine ⟨?_, ?_⟩
  · unfold HealthMonitor.process_frame
    rw [hrun]
    simp only [Bool.not_true, Bool.false_eq_true, if_false]
    rw [check_and_send_alerts_esc_count]
  · unfold HealthMonitor.process_frame
    rw [hrun]
    simp only [Bool.not_true, Bool.false_eq_true, if_false]

/-- C9 counterexample: a running monitor whose alert engine carries an
armed `EYE_STRAIN` escalation for time 100 and one unacknowledged active
alert of that type, ticked at time 150 with no face: the tick returns a
snapshot, yet the ghost invocation counter stays 0 and the expired armed
timer survives untouched — `check_escalations` (which would have cleared
it) was not invoked, refuting "invoked exactly once whether the face is
present or absent". -/
theorem check_escalations_absent_tick_counterexample :
    (HealthMonitor.process_frame c9monitor 150 0 true none).1.isSome = true ∧
    c9monitor.alert_system.pending_escalations .EYE_STRAIN = some 100 ∧
    (150 : ℚ) ≥ 100 ∧
    (AlertSystem.get_active_alerts c9monitor.alert_system).length = 1 ∧
    (HealthMonitor.process_frame c9monitor 150 0 true
      none).2.alert_system.esc_check_count = 0 ∧
    (HealthMonitor.process_frame c9monitor 150 0 true
      none).2.alert_system.pending_escalations .EYE_STRAIN = some 100 := by
  refine ⟨?_, ?_, by norm_num, ?_, ?_, ?_⟩
  · unfold HealthMonitor.process_frame
    simp [c9monitor, HealthMonitor.init]
  · simp [c9monitor, c2state, AlertSystem.init, Function.update]
  · simp [c9monitor, c2state, AlertSystem.init, AlertSystem.get_active_alerts]
  · unfold HealthMonitor.process_frame
    simp [c9monitor, c2state, HealthMonitor.init, AlertSystem.init]
  · unfold HealthMonitor.process_frame
    simp [c9monitor, c2state, HealthMonitor.init, AlertSystem.init, Function.update]

/-- C10: on a face-absent tick of a running monitor, the returned
`HealthState` has `is_calibrating = false` (and `is_user_present =
false`) even while a tracker is still inside its calibration window. -/
theorem absent_snapshot_not_calibrating (m : HealthMonitor.State) (now : ℚ)
    (d : ℕ) (hrun : m.is_running = true)
    (hcal : m.eye_tracker.is_calibrating = true ∨
      m.posture_analyzer.is_calibrating = true) :
    ∃ hs, (HealthMonitor.process_frame m now d true none).1 = some hs ∧
      hs.is_calibrating = false ∧ hs.is_user_present = false := by
  unfold HealthMonitor.process_frame
  rw [hrun]
  simp only [Bool.not_true, Bool.false_eq_true, if_false]
  exact ⟨_, rfl, rfl, rfl⟩

/-- C9 witness: a fresh running monitor ticked at `t = 5`. -/
theorem check_escalations_per_tick_witness :
    (HealthMonitor.process_frame freshMonitor 5 0 true
      (some sigNeutral)).2.alert_system.esc_check_count =
      freshMonitor.alert_system.esc_check_count + 1 ∧
    (HealthMonitor.process_frame freshMonitor 5 0 true
      none).2.alert_system.esc_check_count =
      freshMonitor.alert_system.esc_check_count :=
  check_escalations_per_tick freshMonitor 5 0 sigNeutral rfl

/-- C10 witness: a fresh running monitor (both trackers calibrating)
ticked at `t = 5` with no face. -/
theorem absent_snapshot_not_calibrating_witness :
    ∃ hs, (HealthMonitor.process_frame freshMonitor 5 0 true none).1 = some hs ∧
      hs.is_calibrating = false ∧ hs.is_user_present = false :=
  absent_snapshot_not_calibrating freshMonitor 5 0 rfl (Or.inl rfl)
